import Mathlib

/-!
Verification of the survey-and-recommend pipeline of the AI Agent Survey
System repository.

The development shallowly embeds the parts of the TypeScript source that the
claims are about:

* the SQLite-backed store (DatabaseManager: insertTool, updateTool,
  getToolByUrl) over an explicit list of rows;
* the surveyor upsert loops (GitHubSurveyor.survey, HuggingFaceSurveyor.survey)
  over explicit per-dimension fetch outcomes;
* BaseSurveyor.run and AgentOrchestrator.runSurvey with exceptions made
  explicit via Except;
* BaseSurveyor.fetchWithRetry as a fuel-indexed loop over a stream of attempt
  outcomes, recording an event trace of attempts and sleeps;
* BaseSurveyor.calculatePopularityScore over the reals (Math.log10 becomes
  Real.logb 10);
* PersonalizationEngine.calculateRelevance / generateRecommendations over the
  rationals (the JS numeric literals 0.4, 0.3, 0.2, 0.1 are exact decimals).

Timestamps are abstract naturals; CURRENT_TIMESTAMP becomes an explicit now
parameter.
-/

/-- String.includes of JavaScript: does hay contain needle as a substring.
Implemented over character lists. -/
def jsIncludes (hay needle : String) : Bool :=
  hay.toList.tails.any (fun t => needle.toList.isPrefixOf t)

/-- String.toLowerCase of JavaScript: lower-case the characters one by one. -/
def jsToLower (s : String) : String :=
  String.mk (s.toList.map Char.toLower)

/-- Metadata bag of a stored tool (the JSON object is abstracted to a
key-value list; only the language key is ever read by the engine). -/
abbrev MetaMap : Type := List (String × String)

/-- Row of the ai_tools table (schema.sql).  The url column is nullable and
carries no UNIQUE constraint; id is the INTEGER PRIMARY KEY. -/
structure ToolRow where
  id : Nat
  name : String
  description : Option String
  url : Option String
  source : String
  category : Option String
  subcategory : Option String
  capabilities : List String
  api_available : Bool
  open_source : Bool
  pricing_model : Option String
  first_discovered : Nat
  last_updated : Nat
  popularity_score : ℚ
  relevance_score : ℚ
  metadata : MetaMap
deriving DecidableEq, Repr

/-- In-memory AITool record as constructed by a surveyor (manager.ts
interface AITool; optional fields are Option). -/
structure AITool where
  name : String
  source : String
  description : Option String := none
  url : Option String := none
  category : Option String := none
  subcategory : Option String := none
  capabilities : Option (List String) := none
  api_available : Option Bool := none
  open_source : Option Bool := none
  pricing_model : Option String := none
  popularity_score : Option ℚ := none
  relevance_score : Option ℚ := none
  metadata : Option MetaMap := none
deriving DecidableEq, Repr

/-- Partial AITool as accepted by DatabaseManager.updateTool: every field of
the TS interface may be present or absent. -/
structure ToolPatch where
  name : Option String := none
  source : Option String := none
  description : Option String := none
  url : Option String := none
  category : Option String := none
  subcategory : Option String := none
  capabilities : Option (List String) := none
  api_available : Option Bool := none
  open_source : Option Bool := none
  pricing_model : Option String := none
  popularity_score : Option ℚ := none
  relevance_score : Option ℚ := none
  metadata : Option MetaMap := none
  first_discovered : Option Nat := none
  last_updated : Option Nat := none
deriving DecidableEq, Repr

/-- The ai_tools table, in rowid order. -/
abbrev Store : Type := List ToolRow

/-- Largest id present in the store (0 when empty). -/
def maxId (s : Store) : Nat :=
  (s.map ToolRow.id).foldr max 0

/-- Id assigned by SQLite to the next inserted row (AUTOINCREMENT-style:
one more than the largest id in the table). -/
def nextId (s : Store) : Nat :=
  maxId s + 1

/-- Row built by DatabaseManager.insertTool from an AITool: JS falsy
defaults (tool.popularity_score || 0, tool.api_available ? 1 : 0,
JSON.stringify(tool.capabilities || [])) become getD defaults, and the
first_discovered / last_updated columns take their DEFAULT CURRENT_TIMESTAMP
value, here the explicit now. -/
def mkRow (t : AITool) (now : Nat) (s : Store) : ToolRow :=
  { id := nextId s
    name := t.name
    description := t.description
    url := t.url
    source := t.source
    category := t.category
    subcategory := t.subcategory
    capabilities := t.capabilities.getD []
    api_available := t.api_available.getD false
    open_source := t.open_source.getD false
    pricing_model := t.pricing_model
    first_discovered := now
    last_updated := now
    popularity_score := t.popularity_score.getD 0
    relevance_score := t.relevance_score.getD 0
    metadata := t.metadata.getD [] }

/-- DatabaseManager.insertTool: a plain INSERT INTO ai_tools with no
uniqueness check; returns lastInsertRowid and the grown table. -/
def insertTool (t : AITool) (now : Nat) (s : Store) : Nat × Store :=
  ((mkRow t now s).id, s ++ [mkRow t now s])

/-- Field-by-field effect of DatabaseManager.updateTool on the targeted row:
only name, description, url, category, capabilities and popularity_score are
taken from the patch (each guarded by an undefined-check in the source), and
last_updated is always set to CURRENT_TIMESTAMP.  No other column appears in
the UPDATE statement. -/
def applyUpdate (p : ToolPatch) (now : Nat) (r : ToolRow) : ToolRow :=
  { r with
    name := p.name.getD r.name
    description := match p.description with
      | some d => some d
      | none => r.description
    url := match p.url with
      | some u => some u
      | none => r.url
    category := match p.category with
      | some c => some c
      | none => r.category
    capabilities := p.capabilities.getD r.capabilities
    popularity_score := p.popularity_score.getD r.popularity_score
    last_updated := now }

/-- DatabaseManager.updateTool: UPDATE ai_tools SET ... WHERE id = ?. -/
def updateTool (id : Nat) (p : ToolPatch) (now : Nat) (s : Store) : Store :=
  s.map (fun r => if r.id = id then applyUpdate p now r else r)

/-- DatabaseManager.getToolByUrl: SELECT * FROM ai_tools WHERE url = ?,
.get returns the first matching row; a NULL url never matches. -/
def getToolByUrl (u : String) (s : Store) : Option ToolRow :=
  s.find? (fun r => decide (r.url = some u))

/-- Patch handed to updateTool by the surveyors: the whole in-memory AITool
is passed as Partial, so exactly its defined fields are present. -/
def patchOfTool (t : AITool) : ToolPatch :=
  { name := some t.name
    source := some t.source
    description := t.description
    url := t.url
    category := t.category
    subcategory := t.subcategory
    capabilities := t.capabilities
    api_available := t.api_available
    open_source := t.open_source
    pricing_model := t.pricing_model
    popularity_score := t.popularity_score
    relevance_score := t.relevance_score
    metadata := t.metadata }

/-- Per-tool body of every surveyor loop: look the url up, update in place on
a hit (counting it as updated = true), insert on a miss (updated = false).
The surveyors pass tool.url with a non-null assertion; a tool without a url
never matches a lookup and is inserted. -/
def upsertTool (t : AITool) (now : Nat) (s : Store) : Store × Bool :=
  match t.url with
  | some u =>
    match getToolByUrl u s with
    | some existing => (updateTool existing.id (patchOfTool t) now s, true)
    | none => ((insertTool t now s).2, false)
  | none => ((insertTool t now s).2, false)

/-- Result shape returned by every surveyor's survey(): the accumulated tools,
the stats record, and the shared errors list (baseSurveyor.ts SurveyResult;
stats.errors is set to errors.length by every surveyor). -/
structure SurveyResultM where
  tools : List AITool
  discovered : Nat
  updated : Nat
  errCount : Nat
  errors : List String
deriving DecidableEq, Repr

/-- Inner per-item loop shared by the surveyors: upsert each mapped tool in
order, incrementing updated on a url hit and discovered on a miss. -/
def processTools (ts : List AITool) (now : Nat) (s : Store) : Store × Nat × Nat :=
  match ts with
  | [] => (s, 0, 0)
  | t :: rest =>
    match upsertTool t now s with
    | (s1, true) =>
      let (s2, d, u) := processTools rest now s1
      (s2, d, u + 1)
    | (s1, false) =>
      let (s2, d, u) := processTools rest now s1
      (s2, d + 1, u)

/-- Outcome of fetching and mapping one query dimension (a GitHub topic, a
YouTube query, an arXiv category): either the mapped tools, or the message of
the exception thrown inside the dimension's try block. -/
abbrev DimResult : Type := Except String (List AITool)

/-- GitHubSurveyor.survey over explicit per-dimension outcomes: each topic is
processed inside its own try/catch, a failure appends one message of the form
"topic: message" to the shared errors list and the loop continues; the
YouTube and arXiv surveyors have the same shape.  Returns the final store and
the SurveyResult with stats.errors = errors.length. -/
def surveyDims (dims : List (String × DimResult)) (now : Nat) (s : Store) :
    Store × SurveyResultM :=
  match dims with
  | [] => (s, ⟨[], 0, 0, 0, []⟩)
  | (topic, .error e) :: rest =>
    let (s1, r) := surveyDims rest now s
    (s1, ⟨r.tools, r.discovered, r.updated, r.errCount + 1,
          (topic ++ ": " ++ e) :: r.errors⟩)
  | (_, .ok ts) :: rest =>
    let (s1, d, u) := processTools ts now s
    let (s2, r) := surveyDims rest now s1
    (s2, ⟨ts ++ r.tools, d + r.discovered, u + r.updated, r.errCount, r.errors⟩)

/-- HuggingFaceSurveyor.survey: both query dimensions (trending models, then
trending spaces) run inside one shared try/catch, so a throw while fetching
models skips the spaces entirely, and a throw while fetching spaces leaves the
already-upserted models counted; at most one error message is recorded. -/
def surveyHF (models spaces : DimResult) (now : Nat) (s : Store) :
    Store × SurveyResultM :=
  match models with
  | .error e => (s, ⟨[], 0, 0, 1, [e]⟩)
  | .ok ms =>
    let (s1, d1, u1) := processTools ms now s
    match spaces with
    | .error e => (s1, ⟨ms, d1, u1, 1, [e]⟩)
    | .ok sp =>
      let (s2, d2, u2) := processTools sp now s1
      (s2, ⟨ms ++ sp, d1 + d2, u1 + u2, 0, []⟩)

/-- Row of the survey_runs table as written by DatabaseManager.logSurveyRun;
status is one of the strings "success", "partial", "failed". -/
structure SurveyRunM where
  source : String
  items_discovered : Nat
  items_updated : Nat
  status : String
  error_log : Option String
  duration_seconds : Nat
deriving DecidableEq, Repr

/-- SurveyRun row logged by BaseSurveyor.run for one invocation, paired with
the exception it re-throws when survey() threw: a throwing survey logs a
"failed" row with zero counts and re-raises; a returning survey logs
"partial" when result.stats.errors > 0 and "success" otherwise, recording the
returned counts.  Duration is not modelled and recorded as 0. -/
def runSurveyor (name : String) (b : Except String SurveyResultM) :
    List SurveyRunM × Option String :=
  match b with
  | .ok r =>
    ([{ source := name
        items_discovered := r.discovered
        items_updated := r.updated
        status := if r.errCount > 0 then "partial" else "success"
        error_log := if r.errors.length > 0 then
            some (String.intercalate "\n" r.errors)
          else none
        duration_seconds := 0 }], none)
  | .error e =>
    ([{ source := name
        items_discovered := 0
        items_updated := 0
        status := "failed"
        error_log := some e
        duration_seconds := 0 }], some e)

/-- AgentOrchestrator.runSurvey over the enabled adapters in order, each
adapter given as its name and the behaviour of its survey() call: invokes
run() inside a try/catch, so a re-thrown adapter exception is recorded as
results[name] = "failed" and the loop continues with the next adapter.
Returns the survey_runs log rows in order and the per-adapter result summary;
the inter-adapter stagger sleep has no observable effect here. -/
def runSurvey (adapters : List (String × Except String SurveyResultM)) :
    List SurveyRunM × List (String × String) :=
  match adapters with
  | [] => ([], [])
  | (n, b) :: rest =>
    let (rows, thrown) := runSurveyor n b
    let summary := match thrown with
      | some _ => "failed"
      | none => "success"
    let (log, results) := runSurvey rest
    (rows ++ log, (n, summary) :: results)

/-- Outcome of one fetch(url, ...) call inside fetchWithRetry: a response with
response.ok; a 429 response whose Retry-After header, when present, parses to
a number of seconds; another non-ok status with its statusText; or a thrown
network error. -/
inductive Outcome where
  | ok (body : String)
  | tooMany (retryAfter : Option Nat)
  | httpError (status : Nat) (statusText : String)
  | thrown (msg : String)
deriving DecidableEq, Repr

/-- Response.ok of JavaScript for a modelled outcome. -/
def Outcome.isOk : Outcome → Bool
  | .ok _ => true
  | _ => false

/-- Whether the outcome is a 429 rate-limit response. -/
def Outcome.isRateLimited : Outcome → Bool
  | .tooMany _ => true
  | _ => false

/-- Error captured in lastError by the catch block for one outcome: a non-ok
non-429 status is turned into a thrown Error("HTTP status: statusText") which
the catch immediately captures; a thrown fetch error is captured as is; ok
and 429 outcomes capture nothing. -/
def errOf : Outcome → Option String
  | .httpError st tx => some ("HTTP " ++ toString st ++ ": " ++ tx)
  | .thrown m => some m
  | _ => none

/-- Result of a fetchWithRetry call: the returned response body, or the error
finally thrown (none stands for the fallback Error("Unknown error during
fetch") raised when lastError is still null). -/
inductive FetchResult where
  | success (body : String)
  | failure (err : Option String)
deriving DecidableEq, Repr

/-- Observable event of the retry loop: a fetch attempt with loop counter i
and its outcome, or a sleep of the given number of milliseconds. -/
inductive Event where
  | attempt (i : Nat) (out : Outcome)
  | wait (ms : Nat)
deriving DecidableEq, Repr

/-- Trace of one fetchWithRetry call: final result, number of fetch attempts
made, and the events in order. -/
structure FetchRun where
  result : FetchResult
  attempts : Nat
  trace : List Event
deriving DecidableEq, Repr

/-- Body of fetchWithRetry for attempts i, i+1, ..., with fuel = maxRetries - i
iterations left and lastError as accumulated so far.  Mirrors the source loop:
an ok response returns; a 429 sleeps retryAfter * 1000 ms (falling back to
2 ^ i * 1000) and continues, which still advances i; any other failure sets
lastError and sleeps 2 ^ i * 1000 ms unless this was the last iteration
(i < maxRetries - 1 becomes fuel > 1); an exhausted loop throws lastError. -/
def fetchGo (o : Nat → Outcome) : Nat → Nat → Option String → FetchRun
  | i, 0, le => ⟨.failure le, i, []⟩
  | i, fuel + 1, le =>
    match o i with
    | .ok b => ⟨.success b, i + 1, [.attempt i (.ok b)]⟩
    | .tooMany ra =>
      let w := match ra with
        | some sec => sec * 1000
        | none => 2 ^ i * 1000
      let rest := fetchGo o (i + 1) fuel le
      ⟨rest.result, rest.attempts, .attempt i (.tooMany ra) :: .wait w :: rest.trace⟩
    | .httpError st tx =>
      let rest := fetchGo o (i + 1) fuel (errOf (.httpError st tx))
      if fuel > 0 then
        ⟨rest.result, rest.attempts,
          .attempt i (.httpError st tx) :: .wait (2 ^ i * 1000) :: rest.trace⟩
      else
        ⟨rest.result, rest.attempts, .attempt i (.httpError st tx) :: rest.trace⟩
    | .thrown m =>
      let rest := fetchGo o (i + 1) fuel (errOf (.thrown m))
      if fuel > 0 then
        ⟨rest.result, rest.attempts,
          .attempt i (.thrown m) :: .wait (2 ^ i * 1000) :: rest.trace⟩
      else
        ⟨rest.result, rest.attempts, .attempt i (.thrown m) :: rest.trace⟩

/-- BaseSurveyor.fetchWithRetry(url, options, maxRetries) over a stream of
attempt outcomes; the source default for maxRetries is 3. -/
def fetchWithRetry (o : Nat → Outcome) (maxRetries : Nat := 3) : FetchRun :=
  fetchGo o 0 maxRetries none

/-- Checks along a trace that every 429 attempt whose Retry-After header
parsed to sec seconds is immediately followed by a sleep of at least
sec * 1000 ms. -/
def waits429Lower : List Event → Bool
  | .attempt _ (.tooMany (some sec)) :: rest =>
    match rest with
    | .wait w :: _ => decide (sec * 1000 ≤ w) && waits429Lower rest
    | _ => false
  | _ :: rest => waits429Lower rest
  | [] => true

/-- Value of lastError after the loop has run attempts i, ..., maxRetries - 1
without an early return: each non-429 failure overwrites it, 429 and (counter
to fact here) ok outcomes leave it. -/
def foldErr (o : Nat → Outcome) : Nat → Nat → Option String → Option String
  | _, 0, le => le
  | i, fuel + 1, le =>
    match errOf (o i) with
    | some e => foldErr o (i + 1) fuel (some e)
    | none => foldErr o (i + 1) fuel le

/-- Number of fetch attempts in a trace that failed for a non-429 reason. -/
def countNon429Failures (tr : List Event) : Nat :=
  tr.countP (fun e =>
    match e with
    | .attempt _ out => (errOf out).isSome
    | _ => false)

/-- Star/download/view/like counts passed to calculatePopularityScore; an
absent metric behaves exactly like 0 under the JS truthiness guard. -/
structure Metrics where
  stars : Nat := 0
  downloads : Nat := 0
  views : Nat := 0
  likes : Nat := 0
deriving DecidableEq, Repr

/-- One guarded term of calculatePopularityScore: Math.log10(count + 1) times
a fixed weight, skipped when the count is falsy (0 or absent). -/
noncomputable def popTerm (w : ℝ) (n : Nat) : ℝ :=
  if n ≠ 0 then Real.logb 10 ((n : ℝ) + 1) * w else 0

/-- BaseSurveyor.calculatePopularityScore: weighted sum of log-scaled counts
(stars x 10, downloads x 5, views x 2, likes x 3), clamped to at most 100 by
Math.min. -/
noncomputable def calculatePopularityScore (m : Metrics) : ℝ :=
  min 100 (popTerm 10 m.stars + popTerm 5 m.downloads + popTerm 2 m.views +
    popTerm 3 m.likes)

/-- UserProject as read back by getAllProjects: the JSON columns always parse
to string arrays. -/
structure ProjectM where
  id : Nat
  name : String
  ai_needs : List String
  tech_stack : List String
deriving DecidableEq, Repr

/-- View of a stored tool as consumed by calculateRelevance: capabilities
always parse to an array, metadata.language and category may be absent, and
popularity_score is the stored REAL.  In JS an empty string is falsy, so the
guards on language and category also reject "". -/
structure ToolView where
  id : Nat
  capabilities : List String
  language : Option String
  popularity_score : ℚ
  category : Option String
  open_source : Bool
  api_available : Bool
deriving DecidableEq, Repr

/-- Needs block of calculateRelevance: how many project ai_needs
substring-overlap (in either direction, lower-cased) some tool capability. -/
def needsMatchCount (project : ProjectM) (tool : ToolView) : Nat :=
  ((project.ai_needs.map jsToLower).filter (fun need =>
    (tool.capabilities.map jsToLower).any (fun cap =>
      jsIncludes cap need || jsIncludes need cap))).length

/-- Tech-stack block of calculateRelevance: the guard tool.metadata?.language
is JS-truthy (present and not ""), and some stack label substring-overlaps
the language in either direction. -/
def stackMatches (project : ProjectM) (tool : ToolView) : Bool :=
  match tool.language with
  | none => false
  | some lang =>
    if lang = "" then false
    else (project.tech_stack.map jsToLower).any (fun s =>
      jsIncludes (jsToLower lang) s || jsIncludes s (jsToLower lang))

/-- Category block of calculateRelevance: the guard tool.category is JS-truthy
(present and not ""), and the lower-cased category occurs in the joined needs
text, or contains "general". -/
def categoryMatches (project : ProjectM) (tool : ToolView) : Bool :=
  match tool.category with
  | none => false
  | some c =>
    if c = "" then false
    else
      jsIncludes (String.intercalate " " (project.ai_needs.map jsToLower)) (jsToLower c) ||
        jsIncludes (jsToLower c) "general"

/-- PersonalizationEngine.calculateRelevance: needs match (weight 0.4), tech
stack match (flat 0.3), popularity boost (up to 0.1), category match (flat
0.2), summed in source order and clamped to at most 1 by Math.min. -/
def calculateRelevance (project : ProjectM) (tool : ToolView) : ℚ :=
  let needsScore : ℚ :=
    (needsMatchCount project tool : ℚ) /
      ((max (project.ai_needs.map jsToLower).length 1 : ℕ) : ℚ) * (0.4 : ℚ)
  let stackScore : ℚ := if stackMatches project tool then (0.3 : ℚ) else 0
  let popScore : ℚ :=
    if tool.popularity_score ≠ 0 then tool.popularity_score / 100 * (0.1 : ℚ)
    else 0
  let catScore : ℚ := if categoryMatches project tool then (0.2 : ℚ) else 0
  min 1 (needsScore + stackScore + popScore + catScore)

/-- PersonalizationEngine.generateRecommendationReason: qualitative band
phrase, up to two matched needs, and flat phrases for open source, API
availability and popularity above 50, joined into one sentence. -/
def generateRecommendationReason (project : ProjectM) (tool : ToolView)
    (relevance : ℚ) : String :=
  let r1 : List String :=
    if relevance > (0.8 : ℚ) then ["Highly relevant to your project needs"]
    else if relevance > (0.5 : ℚ) then ["Good match for your project"]
    else ["May be useful for your project"]
  let matchedNeeds := project.ai_needs.filter (fun need =>
    tool.capabilities.any (fun cap =>
      jsIncludes (jsToLower cap) (jsToLower need) ||
        jsIncludes (jsToLower need) (jsToLower cap)))
  let r2 := if matchedNeeds.length > 0 then
      r1 ++ ["Supports: " ++ String.intercalate ", " (matchedNeeds.take 2)]
    else r1
  let r3 := if tool.open_source then r2 ++ ["Open source"] else r2
  let r4 := if tool.api_available then r3 ++ ["API available"] else r3
  let r5 := if tool.popularity_score > 50 then r4 ++ ["Popular tool"] else r4
  String.intercalate ". " r5 ++ "."

/-- Recommendation row as inserted by insertRecommendation. -/
structure RecM where
  tool_id : Nat
  user_project_id : Nat
  relevance_score : ℚ
  reason : String
  status : String
deriving DecidableEq, Repr

/-- PersonalizationEngine.generateRecommendations over the project and the
catalog slice returned by getAllTools(1000): for every tool whose relevance
is strictly above the 0.3 threshold a pending Recommendation row is inserted
(first component, in catalog order: persistence is unbounded); the returned
list (second component) is the persisted list sorted by descending relevance
and truncated to the top 20. -/
def generateRecommendations (project : ProjectM) (allTools : List ToolView) :
    List RecM × List RecM :=
  let persisted := allTools.filterMap (fun t =>
    let relevance := calculateRelevance project t
    if relevance > (0.3 : ℚ) then
      some { tool_id := t.id
             user_project_id := project.id
             relevance_score := relevance
             reason := generateRecommendationReason project t relevance
             status := "pending" }
    else none)
  let sorted := persisted.mergeSort (fun a b => decide (b.relevance_score ≤ a.relevance_score))
  (persisted, sorted.take 20)

/-- Projection of a ToolRow to the columns that never appear in the UPDATE
statement built by DatabaseManager.updateTool. -/
def frameProj (r : ToolRow) :
    Nat × String × Option String × Bool × Bool × Option String × MetaMap × Nat × ℚ :=
  (r.id, r.source, r.subcategory, r.api_available, r.open_source,
   r.pricing_model, r.metadata, r.first_discovered, r.relevance_score)

/-- C9: updateTool frame.  For every tool id and every partial update, only
name, description, url, category, capabilities, popularity_score and
last_updated of the stored rows can change: id, source, subcategory,
api_available, open_source, pricing_model, metadata, relevance_score and
first_discovered are unchanged for every row of the store, even when the
supplied partial Tool carries new values for them. -/
theorem c9_updateTool_frame (id : Nat) (p : ToolPatch) (now : Nat) (s : Store) :
    (updateTool id p now s).map frameProj = s.map frameProj := by
  unfold updateTool
  rw [List.map_map]
  apply List.map_congr_left
  intro r _
  by_cases h : r.id = id <;> simp [h, applyUpdate, frameProj]

/-- Every id in the store is at most maxId. -/
theorem id_le_maxId {r : ToolRow} {s : Store} (h : r ∈ s) : r.id ≤ maxId s := by
  induction s with
  | nil => cases h
  | cons x xs ih =>
    rcases List.mem_cons.mp h with h1 | h1
    · subst h1
      simp [maxId]
    · have := ih h1
      simp [maxId] at *
      omega

/-- Appending one row takes the running maximum with its id. -/
theorem maxId_append_singleton (s : Store) (r : ToolRow) :
    maxId (s ++ [r]) = max (maxId s) r.id := by
  induction s with
  | nil => simp [maxId]
  | cons x xs ih =>
    simp only [List.cons_append, maxId, List.map_cons, List.foldr_cons] at *
    omega

/-- C10: store-level url uniqueness is not enforced.  insertTool is a plain
INSERT (the ai_tools table has no UNIQUE constraint on url), so inserting the
same tool twice adds two rows with that url — the row count for the url grows
by exactly two — and the two inserts return distinct rowids. -/
theorem c10_insert_no_uniqueness (s : Store) (t : AITool) (n1 n2 : Nat) :
    (((insertTool t n2 (insertTool t n1 s).2).2).filter
        (fun r => decide (r.url = t.url))).length =
      (s.filter (fun r => decide (r.url = t.url))).length + 2 ∧
    (insertTool t n1 s).1 ≠ (insertTool t n2 (insertTool t n1 s).2).1 := by
  constructor
  · simp [insertTool, List.filter_append, mkRow]
  · have h1 : (insertTool t n1 s).1 = maxId s + 1 := rfl
    have h2 : (insertTool t n2 (insertTool t n1 s).2).1 = maxId (s ++ [mkRow t n1 s]) + 1 := rfl
    rw [h1, h2, maxId_append_singleton]
    have : (mkRow t n1 s).id = maxId s + 1 := rfl
    omega

/-- C5: orchestrator failure isolation.  runSurvey is a total function of the
adapter behaviours — an adapter whose survey() throws is caught, so the run
completes; every adapter contributes its SurveyRun rows to the log in order
(one row each, so the log length equals the number of adapters); the
per-adapter summary marks a throwing adapter "failed" and a completing one
"success"; and the row logged for an adapter is "failed" exactly when its
survey() threw, and "partial" or "success" (by its error count) when it
completed. -/
theorem c5_runSurvey_isolation (ads : List (String × Except String SurveyResultM)) :
    (runSurvey ads).1 = ads.flatMap (fun a => (runSurveyor a.1 a.2).1) ∧
    (runSurvey ads).1.length = ads.length ∧
    (runSurvey ads).2 = ads.map (fun a =>
      (a.1, match a.2 with
            | .error _ => "failed"
            | .ok _ => "success")) ∧
    ∀ (n : String) (b : Except String SurveyResultM),
      (runSurveyor n b).1.map SurveyRunM.status =
        [match b with
         | .error _ => "failed"
         | .ok r => if r.errCount > 0 then "partial" else "success"] := by
  refine ⟨?_, ?_, ?_, ?_⟩
  · induction ads with
    | nil => rfl
    | cons a rest ih =>
      obtain ⟨n, b⟩ := a
      cases b <;> simp [runSurvey, runSurveyor, ih]
  · induction ads with
    | nil => rfl
    | cons a rest ih =>
      obtain ⟨n, b⟩ := a
      cases b <;> simp [runSurvey, runSurveyor, ih]
  · induction ads with
    | nil => rfl
    | cons a rest ih =>
      obtain ⟨n, b⟩ := a
      cases b <;> simp [runSurvey, runSurveyor, ih]
  · intro n b
    cases b <;> simp [runSurveyor]

/-- C7: SurveyRun status derivation by BaseSurveyor.run.  Each invocation
logs exactly one SurveyRun record; it is "failed" with zero counts when
survey() throws; when survey() returns a result whose stats.errors field
agrees with its errors list (as every surveyor in the repository guarantees),
the record is "partial" exactly when the errors list is nonempty and
"success" otherwise, and it records the returned discovered and updated
counts. -/
theorem c7_run_status (n : String) (b : Except String SurveyResultM) :
    (runSurveyor n b).1.length = 1 ∧
    ∀ row ∈ (runSurveyor n b).1,
      (∀ e, b = Except.error e →
        row.status = "failed" ∧ row.items_discovered = 0 ∧ row.items_updated = 0) ∧
      (∀ r, b = Except.ok r → r.errCount = r.errors.length →
        (row.status = if r.errors.length > 0 then "partial" else "success") ∧
        row.items_discovered = r.discovered ∧ row.items_updated = r.updated) := by
  constructor
  · cases b <;> rfl
  · intro row hrow
    constructor
    · intro e he
      subst he
      simp [runSurveyor] at hrow
      subst hrow
      exact ⟨rfl, rfl, rfl⟩
    · intro r hr hcnt
      subst hr
      simp [runSurveyor] at hrow
      subst hrow
      refine ⟨?_, rfl, rfl⟩
      simp [hcnt]

/-- Concrete SurveyRun row used by the C7 witness. -/
def rowC7 : SurveyRunM :=
  ⟨"github", 2, 3, "partial", some "e1", 0⟩

/-- Witness for C7 at a concrete surveyed result with one error. -/
theorem c7_run_status_witness :
    (runSurveyor "github" (Except.ok ⟨[], 2, 3, 1, ["e1"]⟩)).1.length = 1 ∧
    (rowC7.status = if ([("e1" : String)]).length > 0 then "partial" else "success") ∧
    rowC7.items_discovered = 2 := by
  have h := c7_run_status "github" (Except.ok ⟨[], 2, 3, 1, ["e1"]⟩)
  have h2 := (h.2 rowC7 (by decide)).2 ⟨[], 2, 3, 1, ["e1"]⟩ rfl (by decide)
  exact ⟨h.1, h2.1, h2.2.1⟩

/-- Whether a dimension fetch succeeded. -/
def DimResult.succeeded : DimResult → Bool
  | .ok _ => true
  | .error _ => false

/-- C4 (amended part): per-dimension failure isolation for the surveyors with
a per-dimension try/catch (GitHub, YouTube, arXiv).  The errors list collects
exactly one "topic: message" entry per failed dimension, stats.errors equals
its length, and the store, tools and discovered/updated counts are exactly
those obtained by processing only the successful dimensions — a failing
dimension never prevents the others from being surveyed.  The HuggingFace
surveyor does not have this shape: its two dimensions share one try/catch, so
a throw while fetching models returns immediately with one error and without
processing the spaces dimension at all (see surveyHF). -/
theorem c4_dimension_isolation (dims : List (String × DimResult)) (now : Nat) (s : Store) :
    (surveyDims dims now s).2.errors = dims.filterMap (fun d =>
      match d.2 with
      | .error e => some (d.1 ++ ": " ++ e)
      | .ok _ => none) ∧
    (surveyDims dims now s).2.errCount = (surveyDims dims now s).2.errors.length ∧
    (surveyDims dims now s).1 =
      (surveyDims (dims.filter (fun d => d.2.succeeded)) now s).1 ∧
    (surveyDims dims now s).2.tools =
      (surveyDims (dims.filter (fun d => d.2.succeeded)) now s).2.tools ∧
    (surveyDims dims now s).2.discovered =
      (surveyDims (dims.filter (fun d => d.2.succeeded)) now s).2.discovered ∧
    (surveyDims dims now s).2.updated =
      (surveyDims (dims.filter (fun d => d.2.succeeded)) now s).2.updated := by
  induction dims generalizing s with
  | nil => exact ⟨rfl, rfl, rfl, rfl, rfl, rfl⟩
  | cons d rest ih =>
    obtain ⟨topic, dr⟩ := d
    cases dr with
    | error e =>
      have h := ih s
      refine ⟨?_, ?_, ?_, ?_, ?_, ?_⟩ <;>
        simp [surveyDims, DimResult.succeeded, h.1, h.2.1, h.2.2.1, h.2.2.2.1,
          h.2.2.2.2.1, h.2.2.2.2.2]
    | ok ts =>
      have h := ih (processTools ts now s).1
      refine ⟨?_, ?_, ?_, ?_, ?_, ?_⟩ <;>
        simp [surveyDims, DimResult.succeeded, h.1, h.2.1, h.2.2.1, h.2.2.2.1,
          h.2.2.2.2.1, h.2.2.2.2.2]

/-- Concrete tool used by the C4 counterexample. -/
def toolX : AITool :=
  { name := "X", source := "huggingface", url := some "https://huggingface.co/x" }

/-- C4 (counterexample): the HuggingFace surveyor violates per-dimension
isolation.  When the models dimension (dimension 1 of 2) throws and the
spaces dimension would discover one new tool, survey() returns
errors.length = 1 but discovered = 0 and an untouched store — the spaces
dimension was never processed — whereas processing the same spaces dimension
with a healthy models dimension discovers 1. -/
theorem c4_hf_counterexample :
    (surveyHF (.error "boom") (.ok [toolX]) 0 []).2.discovered = 0 ∧
    (surveyHF (.error "boom") (.ok [toolX]) 0 []).2.tools = [] ∧
    (surveyHF (.error "boom") (.ok [toolX]) 0 []).2.errors = ["boom"] ∧
    (surveyHF (.error "boom") (.ok [toolX]) 0 []).1 = [] ∧
    (surveyHF (.ok []) (.ok [toolX]) 0 []).2.discovered = 1 := by
  refine ⟨rfl, rfl, rfl, rfl, rfl⟩

/-- C1: upsert-by-url idempotence of the adapter flow.  Starting from a store
with no row for the url, surveying the same tool twice (getToolByUrl then
updateTool on hit / insertTool on miss, as in every surveyor loop) leaves
exactly one stored row for that url: the second pass updates the row inserted
by the first in place, so the filtered store is exactly the first-pass row
updated in place, its first_discovered is the first survey's timestamp and
its last_updated is the second survey's timestamp. -/
theorem c1_upsert_idempotent (s : Store) (t : AITool) (u : String) (n0 n1 : Nat)
    (hurl : t.url = some u) (hfresh : ∀ r ∈ s, r.url ≠ some u) :
    (upsertTool t n1 (upsertTool t n0 s).1).1.filter
        (fun r => decide (r.url = some u)) =
      [applyUpdate (patchOfTool t) n1 (mkRow t n0 s)] ∧
    (applyUpdate (patchOfTool t) n1 (mkRow t n0 s)).first_discovered = n0 ∧
    (applyUpdate (patchOfTool t) n1 (mkRow t n0 s)).last_updated = n1 := by
  have hfind0 : getToolByUrl u s = none := by
    unfold getToolByUrl
    rw [List.find?_eq_none]
    intro r hr
    simpa using hfresh r hr
  have hstep0 : (upsertTool t n0 s).1 = s ++ [mkRow t n0 s] := by
    unfold upsertTool
    rw [hurl]
    simp [hfind0, insertTool]
  have hrow0url : (mkRow t n0 s).url = some u := by
    simp [mkRow, hurl]
  have hfind1 : getToolByUrl u (s ++ [mkRow t n0 s]) = some (mkRow t n0 s) := by
    unfold getToolByUrl
    rw [List.find?_append]
    unfold getToolByUrl at hfind0
    rw [hfind0]
    simp [hrow0url]
  have hid : (mkRow t n0 s).id = maxId s + 1 := rfl
  have hstep1 : (upsertTool t n1 (upsertTool t n0 s).1).1 =
      s.map (fun r => if r.id = (mkRow t n0 s).id then
        applyUpdate (patchOfTool t) n1 r else r) ++
      [applyUpdate (patchOfTool t) n1 (mkRow t n0 s)] := by
    rw [hstep0]
    unfold upsertTool
    rw [hurl]
    simp only [hfind1]
    unfold updateTool
    rw [List.map_append]
    simp
  have hmap : s.map (fun r => if r.id = (mkRow t n0 s).id then
      applyUpdate (patchOfTool t) n1 r else r) = s := by
    have : ∀ r ∈ s, (if r.id = (mkRow t n0 s).id then
        applyUpdate (patchOfTool t) n1 r else r) = r := by
      intro r hr
      have hle := id_le_maxId hr
      rw [hid]
      have : r.id ≠ maxId s + 1 := by omega
      simp [this]
    rw [List.map_congr_left this]
    simp
  refine ⟨?_, rfl, rfl⟩
  rw [hstep1, hmap, List.filter_append]
  have hupdurl : (applyUpdate (patchOfTool t) n1 (mkRow t n0 s)).url = some u := by
    simp [applyUpdate, patchOfTool, hurl]
  have hnil : s.filter (fun r => decide (r.url = some u)) = [] := by
    rw [List.filter_eq_nil_iff]
    intro r hr
    simpa using hfresh r hr
  rw [hnil]
  simp [hupdurl]

/-- Concrete tool used by the C1 witness. -/
def toolY : AITool :=
  { name := "A", source := "github", url := some "https://x/y",
    description := some "d", category := some "LLM",
    capabilities := some ["text generation"], popularity_score := some 20 }

/-- Witness for C1: surveying toolY twice over an empty store at times 10
then 20 leaves one row for its url, discovered at 10 and updated at 20. -/
theorem c1_upsert_idempotent_witness :
    (upsertTool toolY 20 (upsertTool toolY 10 []).1).1.filter
        (fun r => decide (r.url = some "https://x/y")) =
      [applyUpdate (patchOfTool toolY) 20 (mkRow toolY 10 [])] ∧
    (applyUpdate (patchOfTool toolY) 20 (mkRow toolY 10 [])).first_discovered = 10 ∧
    (applyUpdate (patchOfTool toolY) 20 (mkRow toolY 10 [])).last_updated = 20 :=
  c1_upsert_idempotent [] toolY "https://x/y" 10 20 rfl (by simp)

/-- The relevance formula is clamped to at most 1 by its final Math.min. -/
theorem calculateRelevance_le_one (project : ProjectM) (tool : ToolView) :
    calculateRelevance project tool ≤ 1 := by
  unfold calculateRelevance
  exact min_le_left _ _

/-- C2: recommendation threshold and range.  A Recommendation is persisted
for a tool only when its relevance — computed by calculateRelevance, the
weighted formula clamped to at most 1 — is strictly greater than 0.3, and
its persisted relevance_score is that relevance, so every persisted score
lies in [0, 1]; and every returned Recommendation (the sorted top 20) is one
of the persisted ones. -/
theorem c2_recommendation_threshold (project : ProjectM) (tools : List ToolView)
    (rec : RecM) :
    (rec ∈ (generateRecommendations project tools).1 →
      (0.3 : ℚ) < rec.relevance_score ∧
      (0 : ℚ) ≤ rec.relevance_score ∧ rec.relevance_score ≤ 1 ∧
      ∃ t ∈ tools, rec.relevance_score = calculateRelevance project t) ∧
    (rec ∈ (generateRecommendations project tools).2 →
      rec ∈ (generateRecommendations project tools).1) := by
  constructor
  · intro hmem
    unfold generateRecommendations at hmem
    simp only [List.mem_filterMap] at hmem
    obtain ⟨t, ht, hf⟩ := hmem
    by_cases hrel : calculateRelevance project t > (0.3 : ℚ)
    · simp only [hrel, if_pos] at hf
      have hscore : rec.relevance_score = calculateRelevance project t := by
        cases hf
        rfl
      refine ⟨?_, ?_, ?_, ⟨t, ht, hscore⟩⟩
      · rw [hscore]; exact hrel
      · rw [hscore]
        have : (0.3 : ℚ) < calculateRelevance project t := hrel
        linarith
      · rw [hscore]; exact calculateRelevance_le_one project t
    · simp [hrel] at hf
  · intro hmem
    have h2 : (generateRecommendations project tools).2 =
        ((generateRecommendations project tools).1.mergeSort
          (fun a b => decide (b.relevance_score ≤ a.relevance_score))).take 20 := rfl
    rw [h2] at hmem
    have hm := List.take_subset _ _ hmem
    rwa [List.mem_mergeSort] at hm

/-- Concrete project used by the C2 witness. -/
def projW : ProjectM := ⟨1, "p", ["generation"], []⟩

/-- Concrete catalog tool used by the C2 witness. -/
def toolW : ToolView := ⟨7, ["generation"], none, 0, none, false, false⟩

/-- On the witness pair the relevance formula evaluates to 0.4. -/
theorem hrelW : calculateRelevance projW toolW = (0.4 : ℚ) := by
  have h1 : needsMatchCount projW toolW = 1 := by decide
  have h2 : stackMatches projW toolW = false := by decide
  have h3 : categoryMatches projW toolW = false := by decide
  have h4 : (projW.ai_needs.map jsToLower).length = 1 := by decide
  have h5 : toolW.popularity_score = 0 := rfl
  unfold calculateRelevance
  rw [h1, h2, h3, h4, h5]
  norm_num

/-- Recommendation row persisted for the witness pair. -/
def recW : RecM :=
  { tool_id := 7, user_project_id := 1,
    relevance_score := calculateRelevance projW toolW,
    reason := generateRecommendationReason projW toolW (calculateRelevance projW toolW),
    status := "pending" }

/-- Witness for C2: recW is persisted for the witness project and catalog,
and its score is above the threshold and inside [0, 1]. -/
theorem c2_recommendation_threshold_witness :
    (0.3 : ℚ) < recW.relevance_score ∧
    (0 : ℚ) ≤ recW.relevance_score ∧ recW.relevance_score ≤ 1 ∧
    ∃ t ∈ [toolW], recW.relevance_score = calculateRelevance projW t := by
  have hgt : calculateRelevance projW toolW > (0.3 : ℚ) := by
    rw [hrelW]
    norm_num
  have hmem : recW ∈ (generateRecommendations projW [toolW]).1 := by
    unfold generateRecommendations
    simp only [List.mem_filterMap]
    exact ⟨toolW, by simp, by simp only [if_pos hgt]; rfl⟩
  exact (c2_recommendation_threshold projW [toolW] recW).1 hmem

/-- Along every fetchWithRetry trace, a 429 attempt with a parsed Retry-After
header of sec seconds is immediately followed by a sleep of at least
sec * 1000 milliseconds. -/
theorem waits429Lower_fetchGo (o : Nat → Outcome) :
    ∀ (fuel i : Nat) (le : Option String),
      waits429Lower (fetchGo o i fuel le).trace = true := by
  intro fuel
  induction fuel with
  | zero =>
    intro i le
    rfl
  | succ fuel ih =>
    intro i le
    cases ho : o i with
    | ok b => simp [fetchGo, ho, waits429Lower]
    | tooMany ra =>
      cases ra with
      | none => simp [fetchGo, ho, waits429Lower, ih]
      | some sec => simp [fetchGo, ho, waits429Lower, ih]
    | httpError st tx =>
      by_cases hf : fuel > 0 <;> simp [fetchGo, ho, hf, waits429Lower, ih]
    | thrown m =>
      by_cases hf : fuel > 0 <;> simp [fetchGo, ho, hf, waits429Lower, ih]

/-- Failing (non-ok, non-429) outcomes capture an error message. -/
theorem errOf_isSome (out : Outcome) (hok : out.isOk = false)
    (hrl : out.isRateLimited = false) : (errOf out).isSome := by
  cases out <;> simp_all [Outcome.isOk, Outcome.isRateLimited, errOf]

/-- When no attempt in the window returns ok, the loop exhausts its fuel:
it makes one fetch per remaining iteration and finally throws the lastError
accumulator folded over the window. -/
theorem fetchGo_exhaust (o : Nat → Outcome) :
    ∀ (fuel i : Nat) (le : Option String),
      (∀ j, i ≤ j → j < i + fuel → (o j).isOk = false) →
      (fetchGo o i fuel le).attempts = i + fuel ∧
      (fetchGo o i fuel le).result = FetchResult.failure (foldErr o i fuel le) := by
  intro fuel
  induction fuel with
  | zero =>
    intro i le h
    exact ⟨rfl, rfl⟩
  | succ fuel ih =>
    intro i le h
    have hne : (o i).isOk = false := h i (by omega) (by omega)
    have hrest : ∀ j, i + 1 ≤ j → j < i + 1 + fuel → (o j).isOk = false := by
      intro j h1 h2
      exact h j (by omega) (by omega)
    cases ho : o i with
    | ok b =>
      rw [ho] at hne
      simp [Outcome.isOk] at hne
    | tooMany ra =>
      have hih := ih (i + 1) le hrest
      constructor
      · simp only [fetchGo, ho]
        rw [hih.1]
        omega
      · simp only [fetchGo, ho]
        rw [hih.2]
        simp [foldErr, ho, errOf]
    | httpError st tx =>
      have hih := ih (i + 1) (errOf (Outcome.httpError st tx)) hrest
      by_cases hf : fuel > 0 <;>
        · constructor
          · simp only [fetchGo, ho, hf, if_pos, if_neg, reduceIte]
            rw [hih.1]
            omega
          · simp only [fetchGo, ho, hf, if_pos, if_neg, reduceIte]
            rw [hih.2]
            simp [foldErr, ho, errOf]
    | thrown m =>
      have hih := ih (i + 1) (errOf (Outcome.thrown m)) hrest
      by_cases hf : fuel > 0 <;>
        · constructor
          · simp only [fetchGo, ho, hf, if_pos, if_neg, reduceIte]
            rw [hih.1]
            omega
          · simp only [fetchGo, ho, hf, if_pos, if_neg, reduceIte]
            rw [hih.2]
            simp [foldErr, ho, errOf]

/-- When the last attempt of the window captured an error, the folded
lastError accumulator is exactly that error. -/
theorem foldErr_last (o : Nat → Outcome) :
    ∀ (fuel i : Nat) (le : Option String),
      (errOf (o (i + fuel))).isSome →
      foldErr o i (fuel + 1) le = errOf (o (i + fuel)) := by
  intro fuel
  induction fuel with
  | zero =>
    intro i le hsome
    simp only [foldErr, Nat.add_zero] at *
    cases he : errOf (o i) with
    | none =>
      rw [he] at hsome
      simp at hsome
    | some e => simp [he, foldErr]
  | succ fuel ih =>
    intro i le hsome
    have hsome2 : (errOf (o (i + 1 + fuel))).isSome := by
      have : i + 1 + fuel = i + (fuel + 1) := by omega
      rw [this]
      exact hsome
    have heq : i + 1 + fuel = i + (fuel + 1) := by omega
    have step : foldErr o i (fuel + 1 + 1) le =
        match errOf (o i) with
        | some e => foldErr o (i + 1) (fuel + 1) (some e)
        | none => foldErr o (i + 1) (fuel + 1) le := rfl
    cases he : errOf (o i) with
    | none =>
      rw [step, he]
      show foldErr o (i + 1) (fuel + 1) le = errOf (o (i + (fuel + 1)))
      rw [ih (i + 1) le hsome2, heq]
    | some e =>
      rw [step, he]
      show foldErr o (i + 1) (fuel + 1) (some e) = errOf (o (i + (fuel + 1)))
      rw [ih (i + 1) (some e) hsome2, heq]

/-- C3: backoff bound.  With maxRetries = 3, when every attempt fails for a
non-429 reason the loop makes at most 3 fetch attempts and the error finally
thrown is the one captured from the third (final) attempt; and whenever any
attempt receives a 429 whose Retry-After header parsed to sec seconds — in
particular 2 — the loop sleeps at least sec * 1000 ms (2 s) before the next
attempt. -/
theorem c3_backoff_bound :
    (∀ o : Nat → Outcome,
      (∀ i, i < 3 → (o i).isOk = false ∧ (o i).isRateLimited = false) →
      (fetchWithRetry o 3).attempts ≤ 3 ∧
      (fetchWithRetry o 3).result = FetchResult.failure (errOf (o 2))) ∧
    ∀ o : Nat → Outcome, waits429Lower (fetchWithRetry o 3).trace = true := by
  constructor
  · intro o h
    have hok : ∀ j, 0 ≤ j → j < 0 + 3 → (o j).isOk = false := by
      intro j h1 h2
      exact (h j (by omega)).1
    have hex := fetchGo_exhaust o 3 0 none hok
    have hsome : (errOf (o (0 + 2))).isSome := by
      have h2 := h 2 (by omega)
      simpa using errOf_isSome (o 2) h2.1 h2.2
    have hfold := foldErr_last o 2 0 none hsome
    constructor
    · rw [fetchWithRetry, hex.1]
    · rw [fetchWithRetry, hex.2]
      have : (2 : Nat) + 1 = 3 := rfl
      rw [← this] at hex ⊢
      rw [hfold]
  · intro o
    exact waits429Lower_fetchGo o 3 0 none

/-- Witness for C3: three thrown network errors in a row exhaust the loop,
make 3 attempts and surface the error of attempt index 2. -/
theorem c3_backoff_bound_witness :
    (fetchWithRetry (fun i => Outcome.thrown ("e" ++ toString i)) 3).attempts ≤ 3 ∧
    (fetchWithRetry (fun i => Outcome.thrown ("e" ++ toString i)) 3).result =
      FetchResult.failure (errOf (Outcome.thrown "e2")) :=
  c3_backoff_bound.1 (fun i => Outcome.thrown ("e" ++ toString i)) (by decide)

/-- The loop never makes more fetch attempts than it has iterations left. -/
theorem fetchGo_attempts_le (o : Nat → Outcome) :
    ∀ (fuel i : Nat) (le : Option String),
      (fetchGo o i fuel le).attempts ≤ i + fuel := by
  intro fuel
  induction fuel with
  | zero =>
    intro i le
    simp [fetchGo]
  | succ fuel ih =>
    intro i le
    cases ho : o i with
    | ok b =>
      simp [fetchGo, ho]
    | tooMany ra =>
      simp only [fetchGo, ho]
      have := ih (i + 1) le
      omega
    | httpError st tx =>
      by_cases hf : fuel > 0 <;>
        · simp only [fetchGo, ho, hf, reduceIte]
          have := ih (i + 1) (errOf (Outcome.httpError st tx))
          omega
    | thrown m =>
      by_cases hf : fuel > 0 <;>
        · simp only [fetchGo, ho, hf, reduceIte]
          have := ih (i + 1) (errOf (Outcome.thrown m))
          omega

/-- Attempt stream of the C6 counterexample: a real network error on the
first attempt, then only 429 responses with Retry-After: 1. -/
def o6 : Nat → Outcome :=
  fun i => if i = 0 then Outcome.thrown "first" else Outcome.tooMany (some 1)

/-- C6 (counterexample): 429 retries do consume the retry budget.  With
maxRetries = 3 and the stream o6, only one attempt fails for a non-429
reason, yet the loop stops after exactly 3 attempts — the two 429 retries
used up the remaining budget — and throws the stored error of attempt 0.
Moreover a stream of only 429 responses also exhausts after 3 attempts and
surfaces the fallback Error("Unknown error during fetch") (failure none),
not any last error. -/
theorem c6_retry_budget_counterexample :
    (fetchWithRetry o6 3).attempts = 3 ∧
    countNon429Failures (fetchWithRetry o6 3).trace = 1 ∧
    (fetchWithRetry o6 3).result = FetchResult.failure (some "first") ∧
    (fetchWithRetry (fun _ => Outcome.tooMany (some 1)) 3).result =
      FetchResult.failure none := by
  refine ⟨?_, ?_, ?_, ?_⟩ <;> decide

/-- C6 (amended): every retry — 429 or not — consumes one iteration of the
loop, so fetchWithRetry makes at most maxRetries attempts in total; a 429
attempt still sleeps for the parsed Retry-After (or the 2 ^ attempt
fallback) before the next attempt; and when no attempt succeeds, the error
surfaced is the lastError accumulator folded over all attempts — the last
non-429 error, or the generic failure none ("Unknown error during fetch")
when every attempt was a 429. -/
theorem c6_retry_budget_amended (o : Nat → Outcome) (maxRetries : Nat) :
    (fetchWithRetry o maxRetries).attempts ≤ maxRetries ∧
    ((∀ i, i < maxRetries → (o i).isOk = false) →
      (fetchWithRetry o maxRetries).result =
        FetchResult.failure (foldErr o 0 maxRetries none)) ∧
    waits429Lower (fetchWithRetry o maxRetries).trace = true := by
  refine ⟨?_, ?_, ?_⟩
  · have := fetchGo_attempts_le o maxRetries 0 none
    simpa [fetchWithRetry] using this
  · intro h
    have hok : ∀ j, 0 ≤ j → j < 0 + maxRetries → (o j).isOk = false := by
      intro j h1 h2
      exact h j (by omega)
    exact (fetchGo_exhaust o maxRetries 0 none hok).2
  · exact waits429Lower_fetchGo o maxRetries 0 none

/-- Witness for the amended C6 at a stream of pure 429 responses: at most 3
attempts and the generic failure (lastError never set). -/
theorem c6_retry_budget_amended_witness :
    (fetchWithRetry (fun _ => Outcome.tooMany (some 1)) 3).attempts ≤ 3 ∧
    (fetchWithRetry (fun _ => Outcome.tooMany (some 1)) 3).result =
      FetchResult.failure (foldErr (fun _ => Outcome.tooMany (some 1)) 0 3 none) :=
  ⟨(c6_retry_budget_amended (fun _ => Outcome.tooMany (some 1)) 3).1,
   (c6_retry_budget_amended (fun _ => Outcome.tooMany (some 1)) 3).2.1 (by decide)⟩

/-- Each weighted log term of the popularity score is nonnegative. -/
theorem popTerm_nonneg (w : ℝ) (hw : 0 ≤ w) (n : Nat) : 0 ≤ popTerm w n := by
  unfold popTerm
  by_cases h : n ≠ 0
  · rw [if_pos h]
    apply mul_nonneg _ hw
    apply Real.logb_nonneg (by norm_num)
    have : (0 : ℝ) ≤ (n : ℝ) := Nat.cast_nonneg n
    linarith
  · rw [if_neg h]

/-- Each weighted log term of the popularity score is monotone in its count. -/
theorem popTerm_mono (w : ℝ) (hw : 0 ≤ w) {a b : Nat} (h : b ≤ a) :
    popTerm w b ≤ popTerm w a := by
  by_cases hb : b = 0
  · rw [hb]
    have h0 : popTerm w 0 = 0 := by simp [popTerm]
    rw [h0]
    exact popTerm_nonneg w hw a
  · have ha : a ≠ 0 := by omega
    unfold popTerm
    rw [if_pos hb, if_pos ha]
    apply mul_le_mul_of_nonneg_right _ hw
    apply Real.logb_le_logb_of_le (by norm_num)
    · have : (0 : ℝ) ≤ (b : ℝ) := Nat.cast_nonneg b
      linarith
    · have : (b : ℝ) ≤ (a : ℝ) := Nat.cast_le.mpr h
      linarith

/-- C8: popularity score monotonicity and range.  When every component of A
is at least the corresponding component of B, calculatePopularityScore B ≤
calculatePopularityScore A; and for every metric set the score — the
weighted sum of log10(count + 1) terms (stars x 10, downloads x 5, views x 2,
likes x 3) clamped to 100 — lies in [0, 100]. -/
theorem c8_popularity_monotone_range (A B : Metrics) :
    (B.stars ≤ A.stars → B.downloads ≤ A.downloads → B.views ≤ A.views →
      B.likes ≤ A.likes →
      calculatePopularityScore B ≤ calculatePopularityScore A) ∧
    0 ≤ calculatePopularityScore A ∧ calculatePopularityScore A ≤ 100 := by
  refine ⟨?_, ?_, ?_⟩
  · intro h1 h2 h3 h4
    unfold calculatePopularityScore
    apply min_le_min (le_refl (100 : ℝ))
    have m1 := popTerm_mono 10 (by norm_num) h1
    have m2 := popTerm_mono 5 (by norm_num) h2
    have m3 := popTerm_mono 2 (by norm_num) h3
    have m4 := popTerm_mono 3 (by norm_num) h4
    linarith
  · unfold calculatePopularityScore
    apply le_min (by norm_num)
    have n1 := popTerm_nonneg 10 (by norm_num) A.stars
    have n2 := popTerm_nonneg 5 (by norm_num) A.downloads
    have n3 := popTerm_nonneg 2 (by norm_num) A.views
    have n4 := popTerm_nonneg 3 (by norm_num) A.likes
    linarith
  · unfold calculatePopularityScore
    exact min_le_left _ _

/-- Witness for C8 at componentwise comparable concrete metric sets. -/
theorem c8_popularity_monotone_range_witness :
    calculatePopularityScore ⟨1, 2, 3, 4⟩ ≤ calculatePopularityScore ⟨2, 3, 4, 5⟩ ∧
    0 ≤ calculatePopularityScore ⟨2, 3, 4, 5⟩ ∧
    calculatePopularityScore ⟨2, 3, 4, 5⟩ ≤ 100 :=
  ⟨(c8_popularity_monotone_range ⟨2, 3, 4, 5⟩ ⟨1, 2, 3, 4⟩).1
      (by decide) (by decide) (by decide) (by decide),
   (c8_popularity_monotone_range ⟨2, 3, 4, 5⟩ ⟨1, 2, 3, 4⟩).2⟩
